import Mathlib

/-!
Verification of the BuddyAI mode-routing / retrieval-grounding core.

This file is a shallow embedding of the decision logic of
`backend/core/services/llm_service.py` (orchestrator, retry/fallback,
strict-textbook validation, suggestion generation), of the `_LRUCache`
in `backend/core/services/translator.py`, of the in-memory test-session
API in `backend/core/views/test_api.py`, and of the HTTP validation in
`backend/core/views/llm_view.py` / `backend/core/views/chat_views.py`.

External effects (the OpenAI client, the vector store, wall-clock
sleeps) are modelled as explicit inputs: retrieval results are a list of
chunks given to each function, and each generation call consumes the
next element of an oracle `provider : Nat → CallOutcome` indexed by the
global invocation count.  Every generation invocation is recorded in a
`List GenCall` log so that call-count properties can be stated.
Python `str.strip` / `str.lower` are modelled over the ASCII whitespace
and letter ranges (all strings the code matches on are ASCII).
-/

namespace BuddyAI

/-! ## Python string helpers -/

/-- ASCII whitespace recognised by Python `str.strip`. -/
def pyWsChar (c : Char) : Bool :=
  c == ' ' || c == '\t' || c == '\n' || c == '\r' || c == '\x0b' || c == '\x0c'

/-- Python `str.strip` on a character list. -/
def pyStripL (l : List Char) : List Char :=
  ((l.dropWhile pyWsChar).reverse.dropWhile pyWsChar).reverse

/-- Python `str.strip`. -/
def pyStrip (s : String) : String := String.mk (pyStripL s.data)

/-- Python `str.lower` (ASCII letters; the phrases the code matches are ASCII). -/
def pyLower (s : String) : String := String.mk (s.data.map Char.toLower)

/-- Does `needle` occur as a contiguous run inside `hay`?  Models Python
`needle in hay` on strings. -/
def hasInfix (needle : List Char) : List Char → Bool
  | [] => needle.isEmpty
  | c :: rest => needle.isPrefixOf (c :: rest) || hasInfix needle rest

/-- Python `sub in s` for strings. -/
def containsSub (s sub : String) : Bool := hasInfix sub.data s.data

/-- Python `s.split(chr(<newline>))`: split at every newline, keeping empty pieces. -/
def splitNl : List Char → List (List Char)
  | [] => [[]]
  | c :: rest =>
    match splitNl rest with
    | [] => [[]]
    | g :: gs => if c == '\n' then [] :: g :: gs else (c :: g) :: gs

/-- Python `s.startswith(p)`. -/
def startsWithS (s p : String) : Bool := p.data.isPrefixOf s.data

/-- Matches of the pattern letter-then-two-or-more-letters-or-hyphens
(`re.findall` with the keyword regex of `generate_suggested_questions`):
at an ASCII letter, greedily take the following letters/hyphens; a match
needs at least two of them; scanning resumes after a match, or one
character later after a failed position.  `fuel` bounds recursion and is
instantiated with the length of the input. -/
def findTokensAux : Nat → List Char → List String
  | 0, _ => []
  | _, [] => []
  | fuel + 1, c :: rest =>
    if c.isAlpha then
      let run := rest.takeWhile (fun d => d.isAlpha || d == '-')
      if 2 ≤ run.length then
        String.mk (c :: run) :: findTokensAux fuel (rest.drop run.length)
      else findTokensAux fuel rest
    else findTokensAux fuel rest

def findTokens (s : String) : List String := findTokensAux s.data.length s.data

/-- Join a list of strings with a separator (Python `sep.join`). -/
def joinSep (sep : String) : List String → String
  | [] => ""
  | [s] => s
  | s :: rest => s ++ sep ++ joinSep sep rest

/-! ## Generation provider and the retry/fallback loop (`LLMService._openai_chat`) -/

/-- Outcome of one invocation of the chat-completion client: the returned
message content, or the text of the raised exception. -/
inductive CallOutcome
  | ok (text : String)
  | err (msg : String)
deriving DecidableEq, Repr

/-- One recorded invocation of the generation provider.  `withMax` is false
for the retry that drops the max-tokens parameter. -/
structure GenCall where
  model : String
  system : String
  user : String
  withMax : Bool
deriving DecidableEq, Repr

/-- Transient signal: the exception message carries one of the retryable
HTTP-like codes (`any(code in msg for code in [...])`). -/
def transientMsg (msg : String) : Bool :=
  ["429", "500", "502", "503", "504"].any (fun code => containsSub msg code)

/-- The unsupported-`max_tokens` detection of `_openai_chat`. -/
def unsupportedMsg (msg : String) : Bool :=
  containsSub msg "Unsupported parameter" &&
    (containsSub msg "max_tokens" || containsSub msg "max_completion_tokens")

/-- The inner `for attempt in range(3)` loop of `_openai_chat` for one model.
`fuel` is the number of attempts left, `n` the global invocation counter.
Returns the content of the first successful call (stripped, as the code
does), or `none` when the attempts for this model are exhausted or a
non-transient failure aborts them. -/
def runAttempts (provider : Nat → CallOutcome) (m system user : String) :
    Nat → Nat → List GenCall → Option String × Nat × List GenCall
  | 0, n, log => (none, n, log)
  | fuel + 1, n, log =>
    match provider n with
    | .ok t => (some (pyStrip t), n + 1, log ++ [⟨m, system, user, true⟩])
    | .err msg =>
      let n1 := n + 1
      let log1 := log ++ [⟨m, system, user, true⟩]
      if unsupportedMsg msg then
        match provider n1 with
        | .ok t => (some (pyStrip t), n1 + 1, log1 ++ [⟨m, system, user, false⟩])
        | .err _ =>
          if transientMsg msg then
            runAttempts provider m system user fuel (n1 + 1) (log1 ++ [⟨m, system, user, false⟩])
          else (none, n1 + 1, log1 ++ [⟨m, system, user, false⟩])
      else
        if transientMsg msg then runAttempts provider m system user fuel n1 log1
        else (none, n1, log1)

/-- The outer `for m in attempt_models` loop of `_openai_chat`. -/
def tryModels (provider : Nat → CallOutcome) (system user : String) :
    List String → Nat → List GenCall → Option String × Nat × List GenCall
  | [], n, log => (none, n, log)
  | m :: ms, n, log =>
    match runAttempts provider m system user 3 n log with
    | (some t, n2, log2) => (some t, n2, log2)
    | (none, n2, log2) => tryModels provider system user ms n2 log2

/-- `LLMService._openai_chat`: try the configured model, appending the
`gpt-4o-mini` fallback when the configured model is `gpt-4o`.  `none`
models the final `raise RuntimeError`. -/
def openai_chat (provider : Nat → CallOutcome) (model system user : String) :
    Option String × List GenCall :=
  let ms := if model = "gpt-4o" then [model, "gpt-4o-mini"] else [model]
  match tryModels provider system user ms 0 [] with
  | (r, _, log) => (r, log)

/-! ## Suggestion generator (`generate_suggested_questions`) -/

/-- One element obtained by iterating the value returned by `json.loads`
on the suggestion response (the code keeps the elements that are
strings and ignores the rest). -/
inductive JsonItem
  | str (s : String)
  | other
deriving DecidableEq, Repr

/-- Outcome of the secondary generation call made for suggestions,
split the way the code branches on it: the call raised, or `json.loads`
on the raw text succeeded and iterating it yields `items`, or parsing
(or iterating) failed and the raw text is line-parsed. -/
inductive SuggestOutcome
  | failure
  | jsonList (items : List JsonItem)
  | text (raw : String)
deriving DecidableEq, Repr

/-- `LLMService._get_fallback_questions`. -/
def fallback_questions : List String :=
  ["Can you explain more about this topic?",
   "What are the key points to remember?",
   "How does this relate to other concepts?"]

/-- The strings kept from a parsed JSON list, each Python-stripped. -/
def jsonStrings (items : List JsonItem) : List String :=
  items.filterMap (fun it => match it with | .str s => some (pyStrip s) | .other => none)

/-- The stop-word set of the keyword heuristic. -/
def stopWords : List String :=
  ["the", "and", "that", "with", "from", "this", "these", "those", "into", "about",
   "which", "their", "there", "have", "has", "will", "would", "could", "should",
   "for", "are", "was", "were", "been", "being", "than", "then", "also", "such",
   "other", "more", "most", "very", "over", "under", "between", "within", "without",
   "using", "use", "used", "based", "including", "example", "examples", "because",
   "while", "when", "where", "what", "why", "how"]

/-- The enumeration markers stripped from free-form suggestion lines. -/
def enumPrefixes : List (List Char) :=
  [['1', '.'], ['2', '.'], ['3', '.'], ['-'], ['•'], ['*']]

/-- The sequential prefix-stripping loop over the fixed marker list
(`clean = clean[len(prefix):].strip()` for each matching marker). -/
def stripMarkers (l : List Char) : List Char :=
  enumPrefixes.foldl
    (fun cur p => if p.isPrefixOf cur then pyStripL (cur.drop p.length) else cur) l

/-- Processing of one stripped, non-empty line of a free-form response:
strip markers, append a question mark when missing, keep the line when
its length is strictly between 10 and 150. -/
def processLine (line : List Char) : Option String :=
  let clean := stripMarkers line
  let clean2 :=
    if clean.isEmpty then clean
    else if clean.getLast? = some '?' then clean
    else clean ++ ['?']
  if 10 < clean2.length ∧ clean2.length < 150 then some (String.mk clean2) else none

/-- The line-parsing branch taken when `json.loads` fails. -/
def lineParse (raw : String) : List String :=
  let lines := ((splitNl raw.data).map pyStripL).filter (fun l => !l.isEmpty)
  lines.filterMap processLine

/-- The keyword list of the heuristic: lowercased regex tokens, first
400, stop words removed. -/
def heuristicKeywords (context : String) : List String :=
  (((findTokens context).map pyLower).take 400).filter (fun w => !(stopWords.contains w))

/-- The keyword-extraction heuristic used when fewer than three questions
survive parsing: the first/second/third surviving keywords fill fixed
templates (the trailing `while` loop never runs: the list has length 3). -/
def heuristic_questions (context : String) : List String :=
  let keywords := heuristicKeywords context
  let topic := keywords.headD "this topic"
  let rel := keywords.getD 1 topic
  let extra := keywords.getD 2 rel
  (["Can you explain " ++ topic ++ " in more detail?",
    "How does " ++ topic ++ " relate to " ++ rel ++ "?",
    "What are the key factors that influence " ++ extra ++ "?"]).take 3

/-- `LLMService.generate_suggested_questions`.  The short-context guard,
then the JSON path (kept strings returned as-is when at least three
survive), the line-parse path, and the heuristic / fixed fallbacks. -/
def generate_suggested_questions (context : String) (sug : SuggestOutcome) : List String :=
  if context = "" ∨ context.length < 30 then fallback_questions
  else
    match sug with
    | .failure => fallback_questions
    | .jsonList items =>
      let questions := jsonStrings items
      if 3 ≤ questions.length then questions.take 3 else heuristic_questions context
    | .text raw =>
      let questions := lineParse raw
      if 3 ≤ questions.length then questions.take 3 else heuristic_questions context

/-- `LLMService._get_topic_specific_questions`. -/
def topic_specific_questions (context : String) : List String :=
  let cl := pyLower context
  if containsSub cl "solar system" || containsSub cl "planet" then
    ["What are the eight planets in our solar system?",
     "How do planets orbit around the Sun?",
     "What makes Earth special compared to other planets?"]
  else if containsSub cl "sun" || containsSub cl "star" then
    ["How does the Sun produce light and heat?",
     "Why does the Sun appear bigger than other stars?",
     "What would happen to Earth without the Sun?"]
  else if containsSub cl "moon" then
    ["Why does the Moon have different phases?",
     "How does the Moon affect Earth\x27s oceans?",
     "How far away is the Moon from Earth?"]
  else fallback_questions

/-! ## Prompt builder (`_initialize_prompts` and `.format` substitution) -/

/-- The textbook template with `context` and `question` substituted. -/
def textbookPrompt (context question : String) : String :=
  "\nYou are a teaching assistant. Give a short, precise, structured answer using only the textbook content provided.\nOutput format (plain text, no Markdown) exactly as follows:\n\nAnswer:\n[one-line definition]\n\nKey Points:\n1. First fact (short sentence).\n2. Second fact (short sentence).\n3. Third fact (short sentence).\n\nRules:\n- Do NOT use Markdown symbols like ##, ###, or **bold**.\n- Always use \"Answer:\" and \"Key Points:\" as plain text headings.\n- Keep answers short and factual; no long paragraphs.\n\nContext (use only this):\n"
    ++ context ++ "\n\nQuestion: " ++ question ++ "\n"

/-- The detailed template with `context` and `question` substituted. -/
def detailedPrompt (context question : String) : String :=
  "\nYou are a teacher explaining to middle school students. Expand on the textbook content in a clear and engaging way.\nOutput format (plain text, no Markdown) exactly as follows:\n\nAnswer:\n[2–3 sentences introduction]\n\nKey Components:\n1. Concept 1 → explained simply in 2–3 lines.\n2. Concept 2 → explained simply in 2–3 lines.\n3. Concept 3 → add a fun fact or real-life example.\n\nHow It Works:\n- Bullet 1\n- Bullet 2\n- Bullet 3\n\nRules:\n- Do NOT use Markdown symbols like ##, ###, or **bold**.\n- Use plain headings like \"Answer:\", \"Key Components:\", \"How It Works:\".\n- Keep paragraphs max 3 lines.\n\nContext (use only this):\n"
    ++ context ++ "\n\nQuestion: " ++ question ++ "\n"

/-- The advanced template with `context` and `question` substituted. -/
def advancedPrompt (context question : String) : String :=
  "\nYou are an expert science explainer. Provide a deep, structured answer while still keeping it readable.\nOutput format (plain text, no Markdown) exactly as follows:\n\nAdvanced Explanation:\n\nScientific View:\n- Point 1\n- Point 2\n\nHistorical Context:\n- Point 1\n- Point 2\n\nReal-World Applications:\n- Point 1\n- Point 2\n\nConclusion:\n[2 short sentences]\n\nRules:\n- Do NOT use Markdown symbols like ##, ###, or **bold**.\n- Always use plain headings exactly as shown: \"Scientific View:\", \"Historical Context:\", etc.\n- Keep content structured with bullets; avoid long paragraphs.\n\nContext (use only this):\n"
    ++ context ++ "\n\nQuestion: " ++ question ++ "\n"

/-! ## Orchestrator (`generate_*_answer`, `generate_answer`, `get_chat_response`) -/

/-- A retrieved passage as the orchestrator uses it: its text and the
`page_number` metadata (already filtered to `textbook.pdf` sources by
`retrieve_textbook_chunks`). -/
structure Chunk where
  page_content : String
  page_number : Option Nat
deriving DecidableEq, Repr

/-- `str(metadata.get(<page-number-key>, <question-mark>))` in the context line. -/
def pageLabel (c : Chunk) : String :=
  match c.page_number with
  | some n => toString n
  | none => "?"

/-- One line of the textbook/detailed context block. -/
def chunkLine (c : Chunk) : String :=
  "[Textbook Page " ++ pageLabel c ++ "]: " ++ c.page_content

/-- Default model identifiers (the `or`-defaults of the task router when
the per-mode environment variables are unset). -/
def modelTextbook : String := "gpt-4o-mini"

def modelDetailed : String := "gpt-4o-mini"

def modelAdvanced : String := "gpt-4o"

/-- The hedge-phrase list of the strict-textbook validator. -/
def hedgePhrases : List String :=
  ["i don\x27t have information", "not in the textbook",
   "cannot be answered", "insufficient information"]

/-- `any(phrase in answer.lower() for phrase in [...])`. -/
def hedgeDetected (answer : String) : Bool :=
  hedgePhrases.any (fun p => containsSub (pyLower answer) p)

/-- The no-passages failure answer of textbook mode. -/
def noPassagesAnswer (message : String) : String :=
  "I couldn\x27t find information about \x27" ++ message
    ++ "\x27 in the textbook. This topic may not be covered in your science textbook, or you might need to rephrase your question."

/-- The hedge-detected failure answer of textbook mode. -/
def hedgeAnswer (message : String) : String :=
  "The textbook doesn\x27t contain enough information to answer: \x27" ++ message
    ++ "\x27. Please try asking about topics that are covered in your science textbook."

/-- The result dictionary built by `generate_textbook_answer`; keys that
only some branches set are `Option`s. -/
structure TBResult where
  success : Bool
  answer : String
  suggested_questions : List String
  source : String
  chunks_used : Option Nat
  used_mode : Option String
  mode_notes : Option String
deriving DecidableEq, Repr

/-- `LLMService.generate_textbook_answer`: empty retrieval short-circuits
before any generation call; otherwise one guarded generation call, then
the hedge gate, then the success dictionary.  `chunks` is the validated
retrieval result, `provider` the generation oracle, `sug` the outcome of
the suggestion call made on success. -/
def generate_textbook_answer (message : String) (chunks : List Chunk)
    (provider : Nat → CallOutcome) (sug : SuggestOutcome) : TBResult × List GenCall :=
  if chunks.isEmpty then
    (⟨false, noPassagesAnswer message, topic_specific_questions message,
      "textbook_only", none, none, none⟩, [])
  else
    let context := joinSep "\n\n" (chunks.map chunkLine)
    let prompt := textbookPrompt context message
    match openai_chat provider modelTextbook "You are a strict textbook assistant." prompt with
    | (none, log) =>
      (⟨false, "Error generating textbook explanation. Please try again.",
        topic_specific_questions message, "textbook_only", none, some "textbook",
        some "Exception occurred during textbook generation"⟩, log)
    | (some answer, log) =>
      if hedgeDetected answer then
        (⟨false, hedgeAnswer message, topic_specific_questions message,
          "textbook_only", none, some "textbook",
          some "Insufficient textbook chunks found to confidently answer."⟩, log)
      else
        (⟨true, answer, generate_suggested_questions answer sug, "textbook_only",
          some chunks.length, some "textbook",
          some "Answer generated strictly from retrieved textbook chunks."⟩, log)

/-- `LLMService.generate_detailed_answer`. -/
def generate_detailed_answer (message : String) (chunks : List Chunk)
    (provider : Nat → CallOutcome) : String × List GenCall :=
  if chunks.isEmpty then
    ("I couldn\x27t find enough textbook content to provide a detailed explanation. Please try asking about topics covered in your science textbook.", [])
  else
    let context := joinSep "\n\n" (chunks.map chunkLine)
    match openai_chat provider modelDetailed "You improve textbook explanations for students."
        (detailedPrompt context message) with
    | (some t, log) => (t, log)
    | (none, log) => ("Error generating detailed explanation. Please try again.", log)

/-- The placeholder context of advanced mode when retrieval is empty. -/
def advancedPlaceholder : String := "No specific textbook reference available for this topic."

/-- `LLMService.generate_advanced_answer`: empty retrieval is non-fatal,
the placeholder context is used and generation still runs. -/
def generate_advanced_answer (message : String) (chunks : List Chunk)
    (provider : Nat → CallOutcome) : String × List GenCall :=
  let context :=
    if chunks.isEmpty then advancedPlaceholder
    else joinSep "\n\n" ((chunks.take 2).map (fun c => c.page_content))
  match openai_chat provider modelAdvanced "You are an advanced science educator."
      (advancedPrompt context message) with
  | (some t, log) => (t, log)
  | (none, log) => ("Error generating advanced explanation. Please try again.", log)

/-- `LLMService.generate_answer`: the service-level minimum-length guard,
then dispatch by level; the `ValueError` raised on an unknown level is
caught by the surrounding `except` and surfaced as the generic error
string. -/
def generate_answer (message level : String) (chunks : List Chunk)
    (provider : Nat → CallOutcome) (sug : SuggestOutcome) : String × List GenCall :=
  if message = "" ∨ (pyStrip message).length < 3 then
    ("Please provide a valid question.", [])
  else if level = "textbook" then
    let (r, log) := generate_textbook_answer message chunks provider sug
    (r.answer, log)
  else if level = "detailed" then
    generate_detailed_answer message chunks provider
  else if level = "advanced" then
    generate_advanced_answer message chunks provider
  else
    ("Error generating " ++ level ++ " explanation. Please try again.", [])

/-- The dictionary returned by `get_chat_response`. -/
structure ChatResponse where
  answer : String
  suggested_questions : List String
  level : String
  success : Bool
  source : String
  used_mode : String
  mode_notes : Option String
deriving DecidableEq, Repr

/-- `LLMService.get_chat_response`: textbook mode forwards the structured
result; other levels call `generate_answer`, always report success, and
attach suggestions generated from the answer text. -/
def get_chat_response (message level : String) (chunks : List Chunk)
    (provider : Nat → CallOutcome) (sug : SuggestOutcome) : ChatResponse × List GenCall :=
  if level = "textbook" then
    let (r, log) := generate_textbook_answer message chunks provider sug
    (⟨r.answer, r.suggested_questions, level, r.success, r.source,
      r.used_mode.getD "textbook", r.mode_notes⟩, log)
  else
    let (answer, log) := generate_answer message level chunks provider sug
    let used_mode := if level = "detailed" ∨ level = "advanced" then level else "textbook"
    let mode_notes :=
      if used_mode = "detailed" then "Detailed mode: textbook grounded with light elaboration"
      else "Advanced mode: allows deeper reasoning beyond textbook"
    (⟨answer, generate_suggested_questions answer sug, level, true,
      level ++ "_mode", used_mode, some mode_notes⟩, log)

/-! ## HTTP views (`chat_views.chat_view`, `llm_view.get_answer`) -/

/-- The JSON body of a view response; only the fields the claims inspect. -/
structure HttpResp where
  status : Nat
  success : Bool
  answer : Option String
  error : Option String
  suggested_questions : Option (List String)
  level : Option String
deriving DecidableEq, Repr

/-- `chat_views.chat_view`: the 4-character question guard (no mode
validation), then `get_chat_response`.  `message` is `data.get` of the
message key (absent modelled as `none`, defaulted to the empty string). -/
def chat_view (message : Option String) (level : String) (chunks : List Chunk)
    (provider : Nat → CallOutcome) (sug : SuggestOutcome) : HttpResp × List GenCall :=
  let msg := message.getD ""
  if msg = "" ∨ (pyStrip msg).length < 4 then
    (⟨200, false, none, some "Please provide a valid question (at least 4 characters).",
      none, none⟩, [])
  else
    let (r, log) := get_chat_response msg level chunks provider sug
    (⟨200, true, some r.answer, none, some r.suggested_questions, some r.level⟩, log)

/-- `llm_view.get_answer`: query and level validation (missing query,
stripped length below 4, level outside the enum) each answer 400 before
retrieval or generation; otherwise the answer, and suggestions filtered
to the ones with non-blank text.  `sugInner` feeds the suggestion call
inside textbook mode, `sugOuter` the view-level suggestion call. -/
def llm_get_answer (query : Option String) (levelRaw : String) (chunks : List Chunk)
    (provider : Nat → CallOutcome) (sugInner sugOuter : SuggestOutcome) :
    HttpResp × List GenCall :=
  let level := pyStrip levelRaw
  match query with
  | none => (⟨400, false, none, some "Query parameter is required", none, none⟩, [])
  | some q =>
    if q = "" then
      (⟨400, false, none, some "Query parameter is required", none, none⟩, [])
    else if pyStrip q = "" ∨ (pyStrip q).length < 4 then
      (⟨400, false, none, some "Query must be at least 4 characters long", none, none⟩, [])
    else if ¬ (level = "textbook" ∨ level = "detailed" ∨ level = "advanced") then
      (⟨400, false, none, some "Invalid level. Must be one of: textbook, detailed, advanced",
        none, none⟩, [])
    else
      let (answer, log) := generate_answer q level chunks provider sugInner
      let sqs := generate_suggested_questions answer sugOuter
      (⟨200, true, some answer, none,
        some (sqs.filter (fun s => !(pyStrip s).isEmpty)), some level⟩, log)

/-! ## The bounded LRU cache (`translator._LRUCache`) -/

/-- The `_LRUCache(OrderedDict)` state: entries listed oldest-touched
first (the end Python's `popitem(last=False)` evicts from). -/
structure LRUCache (K V : Type) where
  capacity : Nat
  entries : List (K × V)
deriving DecidableEq, Repr

variable {K V : Type} [DecidableEq K]

/-- `_LRUCache.get`: a hit pops the entry and re-inserts it at the
most-recently-used end. -/
def lruGet (c : LRUCache K V) (k : K) : Option V × LRUCache K V :=
  match c.entries.find? (fun e => decide (e.1 = k)) with
  | none => (none, c)
  | some e =>
    (some e.2,
     ⟨c.capacity, (c.entries.eraseP (fun e2 => decide (e2.1 = k))) ++ [(k, e.2)]⟩)

/-- `_LRUCache.set`: pop an existing key, else evict the oldest entry
when at capacity, then insert at the most-recently-used end. -/
def lruSet (c : LRUCache K V) (k : K) (v : V) : LRUCache K V :=
  if c.entries.any (fun e => decide (e.1 = k)) then
    ⟨c.capacity, (c.entries.eraseP (fun e2 => decide (e2.1 = k))) ++ [(k, v)]⟩
  else if c.capacity ≤ c.entries.length then
    ⟨c.capacity, c.entries.tail ++ [(k, v)]⟩
  else
    ⟨c.capacity, c.entries ++ [(k, v)]⟩

/-- A fresh cache of the given capacity. -/
def lruEmpty (cap : Nat) : LRUCache K V := ⟨cap, []⟩

/-- Insert a list of key-value pairs in order into a fresh cache. -/
def lruFill (cap : Nat) (ps : List (K × V)) : LRUCache K V :=
  ps.foldl (fun acc p => lruSet acc p.1 p.2) (lruEmpty cap)

/-! ## Test sessions (`test_api.save_answer`, `test_api.submit_test`) -/

/-- A raw JSON value as the test API stores it: an integer (MCQ option
index), a string (written answer), or Python `None`. -/
inductive PyVal
  | int (i : Int)
  | str (s : String)
  | none_
deriving DecidableEq, Repr

/-- Python truthiness of a stored raw value. -/
def pyTruthy : PyVal → Bool
  | .int i => i != 0
  | .str s => s ≠ ""
  | .none_ => false

/-- Python `str()` of a stored raw value. -/
def pyValStr : PyVal → String
  | .int i => toString i
  | .str s => s
  | .none_ => "None"

/-- Lookup in an insertion-ordered association list (a Python dict's
`.get`). -/
def assocGet (l : List (String × α)) (k : String) : Option α :=
  (l.find? (fun e => e.1 == k)).map (fun e => e.2)

/-- Dict assignment: overwrite in place when the key exists, else append. -/
def assocSet (l : List (String × α)) (k : String) (v : α) : List (String × α) :=
  if l.any (fun e => e.1 == k) then
    l.map (fun e => if e.1 == k then (k, v) else e)
  else l ++ [(k, v)]

/-- One graded row as `submit_test` builds it. -/
structure GradeRow where
  questionId : String
  qtype : String
  yourAnswer : PyVal
  correctAnswer : PyVal
  score10 : Nat
  isCorrect : Bool
  missedKeys : List String
deriving DecidableEq, Repr

/-- One in-memory test session. -/
structure Session where
  chapterId : String
  questionIds : List String
  answers : List (String × PyVal)
  startedAt : Nat
  submitted : Bool
  passThreshold : Int
  graded : List (String × GradeRow)
  submittedAt : Option Nat
deriving DecidableEq, Repr

/-- Response of `save_answer`. -/
structure SaveResp where
  status : Nat
  saved : Bool
  error : Option String
deriving DecidableEq, Repr

/-- Response of `submit_test`. -/
structure SubmitResp where
  status : Nat
  overallPercent : Nat
  correct : Nat
  total : Nat
deriving DecidableEq, Repr

/-- `test_api.save_answer`: a missing or already-submitted session is a
404 and nothing changes; a missing or foreign question id is a 400 and
nothing changes; otherwise the raw answer is stored. -/
def save_answer (session : Option Session) (qid : Option String) (answer : PyVal) :
    SaveResp × Option Session :=
  match session with
  | none => (⟨404, false, some "Test not found or already submitted"⟩, none)
  | some s =>
    if s.submitted then
      (⟨404, false, some "Test not found or already submitted"⟩, some s)
    else
      match qid with
      | none => (⟨400, false, some "questionId is required"⟩, some s)
      | some q =>
        if q = "" then (⟨400, false, some "questionId is required"⟩, some s)
        else if !(s.questionIds.contains q) then
          (⟨400, false, some "questionId not in this test"⟩, some s)
        else
          (⟨200, true, none⟩, some { s with answers := assocSet s.answers q answer })

/-- `test_api._grade_written` (the rubric argument is always `None` in
practice because graded rows never store one; kept for faithfulness). -/
def grade_written (answer_text : String) (pass_threshold : Int)
    (rubric : Option (List String)) : Nat × Bool × List String :=
  let lowered := pyLower answer_text
  let llm_score : Int :=
    if containsSub lowered "rotation" || containsSub lowered "rotate" then 80 else 40
  let llm_score := if containsSub lowered "axis" then 95 else llm_score
  let is_pass := pass_threshold ≤ llm_score
  let missed :=
    match rubric with
    | some keys => keys.filter (fun k2 => !(containsSub lowered (pyLower k2)))
    | none => []
  ((if is_pass then 10 else 0), is_pass, missed)

/-- `test_api._grade_mcq`. -/
def grade_mcq (selected correct : Option Int) : Nat × Bool :=
  match selected, correct with
  | some s, some c => ((if s = c then 10 else 0), decide (s = c))
  | _, _ => (0, false)

/-- Python `x or default` on an optional integer (zero is falsy). -/
def pyOrInt (a : Option Int) (b : Int) : Int :=
  match a with
  | some t => if t = 0 then b else t
  | none => b

/-- Python `round` (half-to-even) of `num / den` for non-negative
integers; the code computes this through floats, which can differ on
ties that are not exactly representable — no claim depends on it. -/
def roundHalfEven (num den : Nat) : Nat :=
  let q := num / den
  let r := num % den
  if 2 * r < den then q
  else if den < 2 * r then q + 1
  else if q % 2 = 0 then q else q + 1

/-- The grade cache `_GRADE_CACHE`, restricted to one test id; the
SHA-256 of the serialised answer is modelled by the answer value itself
(the hash is injective on the values the API stores). -/
abbrev GradeCache := List ((String × PyVal) × GradeRow)

/-- The body of `submit_test`'s per-question loop: derive metadata from
any existing graded row (rows never carry `correctIndex` or `rubric`
keys, so those reads yield `None`), infer the question type from the id
pattern otherwise, consult the grade cache, grade, and record the row. -/
def submitStep (pt : Int) (answers : List (String × PyVal))
    (acc : List (String × GradeRow) × GradeCache × Nat) (qid : String) :
    List (String × GradeRow) × GradeCache × Nat :=
  let (graded, cache, cnt) := acc
  let raw := (assocGet answers qid).getD PyVal.none_
  let graded_row := assocGet graded qid
  let correct_answer_text := graded_row.map (fun r => r.correctAnswer)
  let rubric : Option (List String) := none
  let (qtype, correct_index) :=
    match graded_row with
    | some r => (r.qtype, (none : Option Int))
    | none =>
      if startsWithS qid "q-mcq-" then
        ("mcq", some (if qid = "q-mcq-1" then (1 : Int) else 0))
      else ("written", none)
  match cache.find? (fun e => decide (e.1 = (qid, raw))) with
  | some e =>
    let row := e.2
    (assocSet graded qid row, cache, cnt + (if row.score10 = 10 then 1 else 0))
  | none =>
    let row :=
      if qtype = "mcq" then
        let sel : Option Int := match raw with | .int i => some i | _ => none
        let cor : Int := correct_index.getD 0
        let (score10, isc) := grade_mcq sel (some cor)
        (⟨qid, "mcq", raw,
          (match correct_index with | some i => PyVal.int i | none => PyVal.none_),
          score10, isc, []⟩ : GradeRow)
      else
        let answer_val := if pyTruthy raw then raw else PyVal.str ""
        let answer_text := pyValStr answer_val
        let (score10, isp, missed) := grade_written answer_text pt rubric
        let ca : PyVal :=
          match correct_answer_text with
          | some v =>
            if pyTruthy v then v else PyVal.str "Rotation on axis causes day and night."
          | none => PyVal.str "Rotation on axis causes day and night."
        (⟨qid, "written", answer_val, ca, score10, isp, missed⟩ : GradeRow)
    (assocSet graded qid row, cache ++ [((qid, raw), row)],
     cnt + (if row.score10 = 10 then 1 else 0))

/-- `test_api.submit_test`: grade every question (it does NOT check the
`submitted` flag), then finalise the session. -/
def submit_test (s : Session) (now : Nat) (bodyThreshold : Option Int)
    (cache : GradeCache) : SubmitResp × Session × GradeCache :=
  let pt := pyOrInt bodyThreshold (pyOrInt (some s.passThreshold) 60)
  let r := s.questionIds.foldl (submitStep pt s.answers) (s.graded, cache, 0)
  let total := s.questionIds.length
  let correct := r.2.2
  let overall := if total = 0 then 0 else roundHalfEven (correct * 100) total
  (⟨200, overall, correct, total⟩,
   { s with graded := r.1, submitted := true, submittedAt := some now },
   r.2.1)

/-! ## Helper lemmas -/

theorem hasInfix_of_isPrefixOf {b l : List Char} (h : b.isPrefixOf l = true) :
    hasInfix b l = true := by
  cases l with
  | nil =>
    cases b with
    | nil => rfl
    | cons x xs => simp [List.isPrefixOf] at h
  | cons x r => simp [hasInfix, h]

theorem hasInfix_append_left (a : List Char) {b t : List Char} (h : hasInfix b t = true) :
    hasInfix b (a ++ t) = true := by
  induction a with
  | nil => simpa
  | cons x xs ih => simp [hasInfix, ih]

/-- A string always occurs as a substring of itself surrounded by any
prefix and suffix. -/
theorem containsSub_middle (a b c : String) : containsSub (a ++ b ++ c) b = true := by
  unfold containsSub
  have hd : (a ++ b ++ c).data = a.data ++ (b.data ++ c.data) := by
    rw [String.data_append, String.data_append, List.append_assoc]
  rw [hd]
  exact hasInfix_append_left _
    (hasInfix_of_isPrefixOf (List.isPrefixOf_iff_prefix.mpr ⟨c.data, rfl⟩))

theorem mk_ne_empty {l : List Char} (h : l ≠ []) : String.mk l ≠ "" := by
  intro hEq
  exact h (congrArg String.data hEq)

/-- Appending a string whose last character is a question mark keeps the
question mark last and makes the result non-empty. -/
theorem appendQ (s t : String) (ht : t.data.getLast? = some '?') :
    (s ++ t) ≠ "" ∧ (s ++ t).data.getLast? = some '?' := by
  constructor
  · intro hEq
    have hd : s.data ++ t.data = [] := by
      have := congrArg String.data hEq
      rwa [String.data_append] at this
    rw [(List.append_eq_nil.mp hd).2] at ht
    simp at ht
  · rw [String.data_append, List.getLast?_append, ht]
    rfl

/-- `runAttempts` on an immediately successful call. -/
theorem runAttempts_ok (provider : Nat → CallOutcome) (m s u : String)
    (fuel n : Nat) (log : List GenCall) (raw : String)
    (hp : provider n = CallOutcome.ok raw) :
    runAttempts provider m s u (fuel + 1) n log
      = (some (pyStrip raw), n + 1, log ++ [⟨m, s, u, true⟩]) := by
  simp [runAttempts, hp]

/-- `runAttempts` aborts the model after a non-transient failure. -/
theorem runAttempts_err_stop (provider : Nat → CallOutcome) (m s u : String)
    (fuel n : Nat) (log : List GenCall) (e : String)
    (hp : provider n = CallOutcome.err e)
    (ht : transientMsg e = false) (hu : unsupportedMsg e = false) :
    runAttempts provider m s u (fuel + 1) n log
      = (none, n + 1, log ++ [⟨m, s, u, true⟩]) := by
  simp [runAttempts, hp, hu, ht]

/-- `runAttempts` continues with the next attempt after a transient failure. -/
theorem runAttempts_err_retry (provider : Nat → CallOutcome) (m s u : String)
    (fuel n : Nat) (log : List GenCall) (e : String)
    (hp : provider n = CallOutcome.err e)
    (ht : transientMsg e = true) (hu : unsupportedMsg e = false) :
    runAttempts provider m s u (fuel + 1) n log
      = runAttempts provider m s u fuel (n + 1) (log ++ [⟨m, s, u, true⟩]) := by
  simp [runAttempts, hp, hu, ht]

theorem tryModels_head_some (provider : Nat → CallOutcome) (sys u m : String)
    (ms : List String) (n : Nat) (log : List GenCall) (t : String) (n2 : Nat)
    (log2 : List GenCall)
    (h : runAttempts provider m sys u 3 n log = (some t, n2, log2)) :
    tryModels provider sys u (m :: ms) n log = (some t, n2, log2) := by
  simp [tryModels, h]

theorem tryModels_head_none (provider : Nat → CallOutcome) (sys u m : String)
    (ms : List String) (n : Nat) (log : List GenCall) (n2 : Nat) (log2 : List GenCall)
    (h : runAttempts provider m sys u 3 n log = (none, n2, log2)) :
    tryModels provider sys u (m :: ms) n log = tryModels provider sys u ms n2 log2 := by
  simp [tryModels, h]

/-- `_openai_chat` returns the stripped text of an immediately successful
first call, with exactly one invocation logged, whatever the model. -/
theorem openai_chat_first_ok {provider : Nat → CallOutcome} {raw : String}
    (model system user : String) (hp : provider 0 = CallOutcome.ok raw) :
    openai_chat provider model system user
      = (some (pyStrip raw), [⟨model, system, user, true⟩]) := by
  have h1 : runAttempts provider model system user 3 0 []
      = (some (pyStrip raw), 1, [⟨model, system, user, true⟩]) := by
    have := runAttempts_ok provider model system user 2 0 [] raw hp
    simpa using this
  unfold openai_chat
  by_cases hm : model = "gpt-4o"
  · subst hm
    have h2 := tryModels_head_some provider system user "gpt-4o" ["gpt-4o-mini"] 0 [] _ 1 _ h1
    simp [h2]
  · have h2 := tryModels_head_some provider system user model [] 0 [] _ 1 _ h1
    simp [hm, h2]

/-! ## C1 -/

/-- C1: in textbook mode an empty retrieval result short-circuits: the
orchestrator returns `success = false`, the failure answer contains the
question text, and the generation-call log is empty — the result does
not depend on the generation oracle at all. -/
theorem textbook_no_passages_short_circuit (message : String)
    (provider : Nat → CallOutcome) (sug : SuggestOutcome) :
    (generate_textbook_answer message [] provider sug).1.success = false
    ∧ containsSub (generate_textbook_answer message [] provider sug).1.answer message = true
    ∧ (generate_textbook_answer message [] provider sug).2 = [] := by
  refine ⟨rfl, ?_, rfl⟩
  show containsSub (noPassagesAnswer message) message = true
  unfold noPassagesAnswer
  exact containsSub_middle _ _ _

/-! ## C2 -/

/-- C2: in textbook mode with a non-empty retrieval result and a
successful generation call, the hedge gate decides the outcome: a hedged
answer yields `success = false` with the apology text, a non-hedged
answer is returned verbatim with `success = true`. -/
theorem textbook_hedge_validation (message raw : String) (ch : Chunk) (chs : List Chunk)
    (provider : Nat → CallOutcome) (sug : SuggestOutcome)
    (hp : provider 0 = CallOutcome.ok raw) :
    (hedgeDetected (pyStrip raw) = true →
      (generate_textbook_answer message (ch :: chs) provider sug).1.success = false
      ∧ (generate_textbook_answer message (ch :: chs) provider sug).1.answer
          = hedgeAnswer message
      ∧ (generate_textbook_answer message (ch :: chs) provider sug).1.mode_notes
          = some "Insufficient textbook chunks found to confidently answer.")
    ∧ (hedgeDetected (pyStrip raw) = false →
      (generate_textbook_answer message (ch :: chs) provider sug).1.success = true
      ∧ (generate_textbook_answer message (ch :: chs) provider sug).1.answer
          = pyStrip raw) := by
  have hchat := openai_chat_first_ok modelTextbook "You are a strict textbook assistant."
    (textbookPrompt (joinSep "\n\n" ((ch :: chs).map chunkLine)) message) hp
  constructor <;> intro hh <;>
    · simp only [generate_textbook_answer]
      rw [if_neg (by simp : ¬((ch :: chs).isEmpty = true)), hchat]
      simp [hh]

def hedgeWitnessProvider : Nat → CallOutcome :=
  fun _ => CallOutcome.ok "Sorry, there is insufficient information in the context."

def plainWitnessProvider : Nat → CallOutcome :=
  fun _ => CallOutcome.ok "The Earth rotates once a day."

theorem textbook_hedge_validation_witness :
    ((generate_textbook_answer "What is X?" [⟨"The Earth rotates.", some 4⟩]
        hedgeWitnessProvider SuggestOutcome.failure).1.success = false
      ∧ (generate_textbook_answer "What is X?" [⟨"The Earth rotates.", some 4⟩]
          hedgeWitnessProvider SuggestOutcome.failure).1.answer = hedgeAnswer "What is X?")
    ∧ ((generate_textbook_answer "What is X?" [⟨"The Earth rotates.", some 4⟩]
        plainWitnessProvider SuggestOutcome.failure).1.success = true) := by
  have h1 := textbook_hedge_validation "What is X?"
    "Sorry, there is insufficient information in the context." ⟨"The Earth rotates.", some 4⟩
    [] hedgeWitnessProvider SuggestOutcome.failure rfl
  have h2 := textbook_hedge_validation "What is X?"
    "The Earth rotates once a day." ⟨"The Earth rotates.", some 4⟩
    [] plainWitnessProvider SuggestOutcome.failure rfl
  exact ⟨⟨(h1.1 (by decide)).1, (h1.1 (by decide)).2.1⟩, (h2.2 (by decide)).1⟩

/-! ## C3 -/

theorem heuristic_questions_eq (c : String) :
    heuristic_questions c =
      ["Can you explain " ++ (heuristicKeywords c).headD "this topic" ++ " in more detail?",
       "How does " ++ (heuristicKeywords c).headD "this topic" ++ " relate to "
         ++ (heuristicKeywords c).getD 1 ((heuristicKeywords c).headD "this topic") ++ "?",
       "What are the key factors that influence "
         ++ (heuristicKeywords c).getD 2
              ((heuristicKeywords c).getD 1 ((heuristicKeywords c).headD "this topic"))
         ++ "?"] := rfl

theorem heuristic_questions_length (c : String) : (heuristic_questions c).length = 3 := rfl

theorem heuristic_questions_props (c : String) :
    ∀ q ∈ heuristic_questions c, q ≠ "" ∧ q.data.getLast? = some '?' := by
  intro q hq
  rw [heuristic_questions_eq] at hq
  simp only [List.mem_cons, List.not_mem_nil, or_false] at hq
  rcases hq with rfl | rfl | rfl
  · exact appendQ _ " in more detail?" (by decide)
  · exact appendQ _ "?" (by decide)
  · exact appendQ _ "?" (by decide)

theorem processLine_props {line : List Char} {q : String}
    (h : processLine line = some q) : q ≠ "" ∧ q.data.getLast? = some '?' := by
  unfold processLine at h
  dsimp only at h
  by_cases h1 : (stripMarkers line).isEmpty
  · rw [if_pos h1] at h
    rw [if_neg (by simp [List.isEmpty_iff.mp h1])] at h
    cases h
  · rw [if_neg h1] at h
    by_cases h2 : (stripMarkers line).getLast? = some '?'
    · rw [if_pos h2] at h
      split at h
      · rename_i hlen
        injection h with h
        subst h
        refine ⟨mk_ne_empty ?_, by simpa using h2⟩
        intro hnil
        rw [hnil] at hlen
        simp at hlen
      · cases h
    · rw [if_neg h2] at h
      split at h
      · injection h with h
        subst h
        refine ⟨mk_ne_empty (by simp), ?_⟩
        show (stripMarkers line ++ ['?']).getLast? = some '?'
        exact List.getLast?_concat _
      · cases h

theorem lineParse_props (raw : String) :
    ∀ q ∈ lineParse raw, q ≠ "" ∧ q.data.getLast? = some '?' := by
  intro q hq
  unfold lineParse at hq
  obtain ⟨line, _, hline⟩ := List.mem_filterMap.mp hq
  exact processLine_props hline

/-- C3 (amended): for a source text of length at least 30 the suggestion
generator always returns exactly 3 strings; each is non-empty and ends
in a question mark unless the provider response was a parsed JSON list
with at least three string items, which is passed through as-is. -/
theorem suggestion_shape (context : String) (sug : SuggestOutcome)
    (h : 30 ≤ context.length) :
    (generate_suggested_questions context sug).length = 3
    ∧ (match sug with
       | SuggestOutcome.jsonList items =>
         3 ≤ (jsonStrings items).length
           ∨ ∀ q ∈ generate_suggested_questions context sug,
               q ≠ "" ∧ q.data.getLast? = some '?'
       | _ => ∀ q ∈ generate_suggested_questions context sug,
               q ≠ "" ∧ q.data.getLast? = some '?') := by
  have hne : ¬(context = "" ∨ context.length < 30) := by
    rintro (h1 | h2)
    · rw [h1] at h
      simp at h
    · omega
  have hfb : ∀ q ∈ fallback_questions, q ≠ "" ∧ q.data.getLast? = some '?' := by decide
  constructor
  · unfold generate_suggested_questions
    rw [if_neg hne]
    cases sug with
    | failure => rfl
    | jsonList items =>
      dsimp only
      by_cases h3 : 3 ≤ (jsonStrings items).length
      · rw [if_pos h3]
        rw [List.length_take]
        omega
      · rw [if_neg h3]
        exact heuristic_questions_length context
    | text raw =>
      dsimp only
      by_cases h3 : 3 ≤ (lineParse raw).length
      · rw [if_pos h3]
        rw [List.length_take]
        omega
      · rw [if_neg h3]
        exact heuristic_questions_length context
  · cases sug with
    | failure =>
      intro q hq
      unfold generate_suggested_questions at hq
      rw [if_neg hne] at hq
      exact hfb q hq
    | jsonList items =>
      by_cases h3 : 3 ≤ (jsonStrings items).length
      · exact Or.inl h3
      · refine Or.inr ?_
        intro q hq
        unfold generate_suggested_questions at hq
        rw [if_neg hne] at hq
        dsimp only at hq
        rw [if_neg h3] at hq
        exact heuristic_questions_props context q hq
    | text raw =>
      intro q hq
      unfold generate_suggested_questions at hq
      rw [if_neg hne] at hq
      dsimp only at hq
      by_cases h3 : 3 ≤ (lineParse raw).length
      · rw [if_pos h3] at hq
        exact lineParse_props raw q (List.take_subset 3 _ hq)
      · rw [if_neg h3] at hq
        exact heuristic_questions_props context q hq

def suggestionCexContext : String := "The solar system has eight planets orbiting the Sun."

theorem suggestion_passthrough_cex :
    30 ≤ suggestionCexContext.length
    ∧ generate_suggested_questions suggestionCexContext
        (SuggestOutcome.jsonList [JsonItem.str "alpha", JsonItem.str "beta", JsonItem.str "gamma"])
        = ["alpha", "beta", "gamma"]
    ∧ "alpha" ∈ generate_suggested_questions suggestionCexContext
        (SuggestOutcome.jsonList [JsonItem.str "alpha", JsonItem.str "beta", JsonItem.str "gamma"])
    ∧ "alpha".data.getLast? ≠ some '?' := by decide

theorem suggestion_shape_witness :
    (generate_suggested_questions suggestionCexContext SuggestOutcome.failure).length = 3
    ∧ ("Can you explain more about this topic?" ≠ ""
        ∧ ("Can you explain more about this topic?").data.getLast? = some '?') := by
  have h := suggestion_shape suggestionCexContext SuggestOutcome.failure (by decide)
  exact ⟨h.1, h.2 "Can you explain more about this topic?" (by decide)⟩

/-! ## C4 -/

/-- Three attempts on one model: transient failures at invocations `n`
and `n+1`, success at `n+2`. -/
theorem runAttempts_retry_twice_ok (provider : Nat → CallOutcome) (m sys u : String)
    (n : Nat) (log : List GenCall) (e0 e1 t : String)
    (hp0 : provider n = CallOutcome.err e0)
    (ht0 : transientMsg e0 = true) (hu0 : unsupportedMsg e0 = false)
    (hp1 : provider (n + 1) = CallOutcome.err e1)
    (ht1 : transientMsg e1 = true) (hu1 : unsupportedMsg e1 = false)
    (hp2 : provider (n + 2) = CallOutcome.ok t) :
    runAttempts provider m sys u 3 n log
      = (some (pyStrip t), n + 3,
         log ++ [⟨m, sys, u, true⟩, ⟨m, sys, u, true⟩, ⟨m, sys, u, true⟩]) := by
  have s1 : runAttempts provider m sys u 3 n log
      = runAttempts provider m sys u 2 (n + 1) (log ++ [⟨m, sys, u, true⟩]) :=
    runAttempts_err_retry provider m sys u 2 n log e0 hp0 ht0 hu0
  have s2 : runAttempts provider m sys u 2 (n + 1) (log ++ [⟨m, sys, u, true⟩])
      = runAttempts provider m sys u 1 (n + 2)
          (log ++ [⟨m, sys, u, true⟩, ⟨m, sys, u, true⟩]) := by
    have := runAttempts_err_retry provider m sys u 1 (n + 1)
      (log ++ [⟨m, sys, u, true⟩]) e1 hp1 ht1 hu1
    simpa using this
  have s3 : runAttempts provider m sys u 1 (n + 2)
        (log ++ [⟨m, sys, u, true⟩, ⟨m, sys, u, true⟩])
      = (some (pyStrip t), n + 3,
         log ++ [⟨m, sys, u, true⟩, ⟨m, sys, u, true⟩, ⟨m, sys, u, true⟩]) := by
    have := runAttempts_ok provider m sys u 0 (n + 2)
      (log ++ [⟨m, sys, u, true⟩, ⟨m, sys, u, true⟩]) t hp2
    simpa [Nat.add_assoc] using this
  rw [s1, s2, s3]

/-- C4: the chat call retries a model up to 3 attempts on transient
signals and aborts the model immediately on any other failure.  A
provider that fails transiently twice and succeeds on the third attempt
yields a successful result with exactly 3 logged invocations; a provider
whose first failure carries no transient code aborts after exactly one
invocation of that model. -/
theorem chat_retry_policy
    (p q : Nat → CallOutcome) (m sys u m2 sys2 u2 e0 e1 t f : String)
    (hp0 : p 0 = CallOutcome.err e0)
    (ht0 : transientMsg e0 = true) (hu0 : unsupportedMsg e0 = false)
    (hp1 : p 1 = CallOutcome.err e1)
    (ht1 : transientMsg e1 = true) (hu1 : unsupportedMsg e1 = false)
    (hp2 : p 2 = CallOutcome.ok t)
    (hq0 : q 0 = CallOutcome.err f)
    (htf : transientMsg f = false) (huf : unsupportedMsg f = false)
    (hm2 : m2 ≠ "gpt-4o") :
    openai_chat p m sys u
      = (some (pyStrip t), [⟨m, sys, u, true⟩, ⟨m, sys, u, true⟩, ⟨m, sys, u, true⟩])
    ∧ openai_chat q m2 sys2 u2 = (none, [⟨m2, sys2, u2, true⟩]) := by
  constructor
  · have h3 : runAttempts p m sys u 3 0 []
        = (some (pyStrip t), 3, [⟨m, sys, u, true⟩, ⟨m, sys, u, true⟩, ⟨m, sys, u, true⟩]) := by
      have := runAttempts_retry_twice_ok p m sys u 0 [] e0 e1 t hp0 ht0 hu0
        (by simpa using hp1) ht1 hu1 (by simpa using hp2)
      simpa using this
    unfold openai_chat
    by_cases hm : m = "gpt-4o"
    · subst hm
      have h4 := tryModels_head_some p sys u "gpt-4o" ["gpt-4o-mini"] 0 [] _ 3 _ h3
      simp [h4]
    · have h4 := tryModels_head_some p sys u m [] 0 [] _ 3 _ h3
      simp [hm, h4]
  · have h3 : runAttempts q m2 sys2 u2 3 0 [] = (none, 1, [⟨m2, sys2, u2, true⟩]) := by
      have := runAttempts_err_stop q m2 sys2 u2 2 0 [] f hq0 htf huf
      simpa using this
    unfold openai_chat
    have h4 := tryModels_head_none q sys2 u2 m2 [] 0 [] 1 _ h3
    simp [hm2, h4, tryModels]

def retryWitnessProvider : Nat → CallOutcome := fun n =>
  if n = 0 then CallOutcome.err "429 rate limited"
  else if n = 1 then CallOutcome.err "503 service unavailable"
  else CallOutcome.ok " All good "

def abortWitnessProvider : Nat → CallOutcome :=
  fun _ => CallOutcome.err "401 unauthorized"

theorem chat_retry_policy_witness :
    openai_chat retryWitnessProvider "gpt-4o-mini" "s" "u"
      = (some (pyStrip " All good "),
         [⟨"gpt-4o-mini", "s", "u", true⟩, ⟨"gpt-4o-mini", "s", "u", true⟩,
          ⟨"gpt-4o-mini", "s", "u", true⟩])
    ∧ openai_chat abortWitnessProvider "other-model" "s2" "u2"
      = (none, [⟨"other-model", "s2", "u2", true⟩]) :=
  chat_retry_policy retryWitnessProvider abortWitnessProvider
    "gpt-4o-mini" "s" "u" "other-model" "s2" "u2"
    "429 rate limited" "503 service unavailable" " All good " "401 unauthorized"
    rfl (by decide) (by decide) rfl (by decide) (by decide) rfl
    rfl (by decide) (by decide) (by decide)

/-! ## C5 -/

/-- The counterexample provider: every invocation while the top-tier
model is being tried fails with a transient 429, the next succeeds. -/
def fallbackCexProvider : Nat → CallOutcome := fun n =>
  if n < 3 then CallOutcome.err "429 Too Many Requests"
  else CallOutcome.ok "answer from fallback"

/-- C5 counterexample: a provider that always fails for `gpt-4o` (with a
transient code) and succeeds for the fallback yields a successful result,
but the top-tier model is invoked 3 times — not exactly once. -/
theorem model_fallback_cex :
    (openai_chat fallbackCexProvider "gpt-4o" "sys" "prompt").1.isSome = true
    ∧ (openai_chat fallbackCexProvider "gpt-4o" "sys" "prompt").2.map GenCall.model
        = ["gpt-4o", "gpt-4o", "gpt-4o", "gpt-4o-mini"]
    ∧ (openai_chat fallbackCexProvider "gpt-4o" "sys" "prompt").2.map GenCall.model
        ≠ ["gpt-4o", "gpt-4o-mini"] := by decide

/-- C5 (amended): when the configured model is `gpt-4o` and it fails, the
chat call falls back once to `gpt-4o-mini` before giving up.  With a
non-transient failure the top-tier model is invoked exactly once before
the single fallback invocation; with transient failures it is attempted
3 times first, then the fallback once. -/
theorem model_fallback_behavior
    (p q : Nat → CallOutcome) (sys u sys2 u2 e t e0 e1 e2 t2 : String)
    (hp0 : p 0 = CallOutcome.err e)
    (ht : transientMsg e = false) (hu : unsupportedMsg e = false)
    (hp1 : p 1 = CallOutcome.ok t)
    (hq0 : q 0 = CallOutcome.err e0)
    (ht0 : transientMsg e0 = true) (hu0 : unsupportedMsg e0 = false)
    (hq1 : q 1 = CallOutcome.err e1)
    (ht1 : transientMsg e1 = true) (hu1 : unsupportedMsg e1 = false)
    (hq2 : q 2 = CallOutcome.err e2)
    (ht2 : transientMsg e2 = true) (hu2 : unsupportedMsg e2 = false)
    (hq3 : q 3 = CallOutcome.ok t2) :
    openai_chat p "gpt-4o" sys u
      = (some (pyStrip t), [⟨"gpt-4o", sys, u, true⟩, ⟨"gpt-4o-mini", sys, u, true⟩])
    ∧ openai_chat q "gpt-4o" sys2 u2
      = (some (pyStrip t2),
         [⟨"gpt-4o", sys2, u2, true⟩, ⟨"gpt-4o", sys2, u2, true⟩,
          ⟨"gpt-4o", sys2, u2, true⟩, ⟨"gpt-4o-mini", sys2, u2, true⟩]) := by
  constructor
  · have h3 : runAttempts p "gpt-4o" sys u 3 0 [] = (none, 1, [⟨"gpt-4o", sys, u, true⟩]) := by
      have := runAttempts_err_stop p "gpt-4o" sys u 2 0 [] e hp0 ht hu
      simpa using this
    have h5 : runAttempts p "gpt-4o-mini" sys u 3 1 [⟨"gpt-4o", sys, u, true⟩]
        = (some (pyStrip t), 2,
           [⟨"gpt-4o", sys, u, true⟩, ⟨"gpt-4o-mini", sys, u, true⟩]) := by
      have := runAttempts_ok p "gpt-4o-mini" sys u 2 1 [⟨"gpt-4o", sys, u, true⟩] t hp1
      simpa using this
    unfold openai_chat
    have h4 := tryModels_head_none p sys u "gpt-4o" ["gpt-4o-mini"] 0 [] 1 _ h3
    have h6 := tryModels_head_some p sys u "gpt-4o-mini" [] 1 [⟨"gpt-4o", sys, u, true⟩] _ 2 _ h5
    simp [h4, h6]
  · have h3 : runAttempts q "gpt-4o" sys2 u2 3 0 []
        = (none, 3,
           [⟨"gpt-4o", sys2, u2, true⟩, ⟨"gpt-4o", sys2, u2, true⟩,
            ⟨"gpt-4o", sys2, u2, true⟩]) := by
      have s1 : runAttempts q "gpt-4o" sys2 u2 3 0 []
          = runAttempts q "gpt-4o" sys2 u2 2 1 [⟨"gpt-4o", sys2, u2, true⟩] := by
        have := runAttempts_err_retry q "gpt-4o" sys2 u2 2 0 [] e0 hq0 ht0 hu0
        simpa using this
      have s2 : runAttempts q "gpt-4o" sys2 u2 2 1 [⟨"gpt-4o", sys2, u2, true⟩]
          = runAttempts q "gpt-4o" sys2 u2 1 2
              [⟨"gpt-4o", sys2, u2, true⟩, ⟨"gpt-4o", sys2, u2, true⟩] := by
        have := runAttempts_err_retry q "gpt-4o" sys2 u2 1 1
          [⟨"gpt-4o", sys2, u2, true⟩] e1 hq1 ht1 hu1
        simpa using this
      have s3 : runAttempts q "gpt-4o" sys2 u2 1 2
            [⟨"gpt-4o", sys2, u2, true⟩, ⟨"gpt-4o", sys2, u2, true⟩]
          = (none, 3,
             [⟨"gpt-4o", sys2, u2, true⟩, ⟨"gpt-4o", sys2, u2, true⟩,
              ⟨"gpt-4o", sys2, u2, true⟩]) := by
        have := runAttempts_err_retry q "gpt-4o" sys2 u2 0 2
          [⟨"gpt-4o", sys2, u2, true⟩, ⟨"gpt-4o", sys2, u2, true⟩] e2 hq2 ht2 hu2
        simpa [runAttempts] using this
      rw [s1, s2, s3]
    have h5 : runAttempts q "gpt-4o-mini" sys2 u2 3 3
          [⟨"gpt-4o", sys2, u2, true⟩, ⟨"gpt-4o", sys2, u2, true⟩, ⟨"gpt-4o", sys2, u2, true⟩]
        = (some (pyStrip t2), 4,
           [⟨"gpt-4o", sys2, u2, true⟩, ⟨"gpt-4o", sys2, u2, true⟩,
            ⟨"gpt-4o", sys2, u2, true⟩, ⟨"gpt-4o-mini", sys2, u2, true⟩]) := by
      have := runAttempts_ok q "gpt-4o-mini" sys2 u2 2 3
        [⟨"gpt-4o", sys2, u2, true⟩, ⟨"gpt-4o", sys2, u2, true⟩,
         ⟨"gpt-4o", sys2, u2, true⟩] t2 hq3
      simpa using this
    unfold openai_chat
    have h4 := tryModels_head_none q sys2 u2 "gpt-4o" ["gpt-4o-mini"] 0 [] 3 _ h3
    have h6 := tryModels_head_some q sys2 u2 "gpt-4o-mini" [] 3 _ _ 4 _ h5
    simp [h4, h6]

def fallbackOnceProvider : Nat → CallOutcome := fun n =>
  if n = 0 then CallOutcome.err "400 invalid request" else CallOutcome.ok "mini answer"

theorem model_fallback_behavior_witness :
    openai_chat fallbackOnceProvider "gpt-4o" "s" "u"
      = (some (pyStrip "mini answer"),
         [⟨"gpt-4o", "s", "u", true⟩, ⟨"gpt-4o-mini", "s", "u", true⟩])
    ∧ openai_chat fallbackCexProvider "gpt-4o" "s2" "u2"
      = (some (pyStrip "answer from fallback"),
         [⟨"gpt-4o", "s2", "u2", true⟩, ⟨"gpt-4o", "s2", "u2", true⟩,
          ⟨"gpt-4o", "s2", "u2", true⟩, ⟨"gpt-4o-mini", "s2", "u2", true⟩]) :=
  model_fallback_behavior fallbackOnceProvider fallbackCexProvider "s" "u" "s2" "u2"
    "400 invalid request" "mini answer"
    "429 Too Many Requests" "429 Too Many Requests" "429 Too Many Requests" "answer from fallback"
    rfl (by decide) (by decide) rfl
    rfl (by decide) (by decide)
    rfl (by decide) (by decide)
    rfl (by decide) (by decide)
    rfl

/-! ## C6 -/

section LRUProofs

variable {K V : Type} [DecidableEq K]

theorem find?_eq_none_of_keys (k : K) (l : List (K × V)) (h : ∀ e ∈ l, e.1 ≠ k) :
    l.find? (fun e => decide (e.1 = k)) = none :=
  List.find?_eq_none.mpr (fun e he => by simpa using h e he)

/-- After erasing a key from an association list with distinct keys, a
lookup of that key fails. -/
theorem eraseP_find_none (k : K) (l : List (K × V))
    (h : (l.map Prod.fst).Nodup) :
    (l.eraseP (fun e => decide (e.1 = k))).find? (fun e => decide (e.1 = k)) = none := by
  induction l with
  | nil => rfl
  | cons e rest ih =>
    rw [List.map_cons, List.nodup_cons] at h
    by_cases hek : e.1 = k
    · rw [List.eraseP_cons_of_pos (by simpa using hek)]
      apply find?_eq_none_of_keys
      intro e2 he2 hk2
      exact h.1 (by
        have : e2.1 ∈ rest.map Prod.fst := List.mem_map_of_mem Prod.fst he2
        rwa [hk2, ← hek] at this)
    · rw [List.eraseP_cons_of_neg (by simpa using hek)]
      rw [List.find?_cons_of_neg _ (by simpa using hek)]
      exact ih h.2

/-- In an association list with distinct keys, `find?` at the key of a
member returns that member. -/
theorem find?_mem_nodup (l : List (K × V)) (q : K × V)
    (hnd : (l.map Prod.fst).Nodup) (hmem : q ∈ l) :
    l.find? (fun e => decide (e.1 = q.1)) = some q := by
  induction l with
  | nil => cases hmem
  | cons e rest ih =>
    rw [List.map_cons, List.nodup_cons] at hnd
    by_cases heq : e.1 = q.1
    · have heq2 : e = q := by
        rcases List.mem_cons.mp hmem with h1 | h1
        · exact h1.symm
        · exact absurd (by
            have : q.1 ∈ rest.map Prod.fst := List.mem_map_of_mem Prod.fst h1
            rwa [← heq] at this) hnd.1
      rw [List.find?_cons_of_pos _ (by simpa using heq), heq2]
    · have hq : q ∈ rest := by
        rcases List.mem_cons.mp hmem with h1 | h1
        · exact absurd (by rw [h1]) heq
        · exact h1
      rw [List.find?_cons_of_neg _ (by simpa using heq)]
      exact ih hnd.2 hq

/-- Round-trip: a `set` followed by a `get` of the same key returns the
value just stored (for cache states with distinct keys, the invariant the
`OrderedDict` maintains). -/
theorem lruGet_after_set (c : LRUCache K V) (k : K) (v : V)
    (h : (c.entries.map Prod.fst).Nodup) :
    (lruGet (lruSet c k v) k).1 = some v := by
  unfold lruSet
  by_cases hin : c.entries.any (fun e => decide (e.1 = k)) = true
  · rw [if_pos hin]
    unfold lruGet
    rw [List.find?_append, eraseP_find_none k c.entries h]
    simp [List.find?]
  · rw [if_neg hin]
    have hfree : ∀ e ∈ c.entries, e.1 ≠ k := by
      intro e he hk
      exact hin (List.any_eq_true.mpr ⟨e, he, by simpa using hk⟩)
    by_cases hfull : c.capacity ≤ c.entries.length
    · rw [if_pos hfull]
      unfold lruGet
      rw [List.find?_append,
        find?_eq_none_of_keys k _ (fun e he => hfree e (List.tail_subset _ he))]
      simp [List.find?]
    · rw [if_neg hfull]
      unfold lruGet
      rw [List.find?_append, find?_eq_none_of_keys k _ hfree]
      simp [List.find?]

theorem lruSet_capacity (c : LRUCache K V) (k : K) (v : V) :
    (lruSet c k v).capacity = c.capacity := by
  unfold lruSet
  split
  · rfl
  · split <;> rfl

/-- One `set` keeps the entry count within a positive capacity. -/
theorem lruSet_size (c : LRUCache K V) (k : K) (v : V) (hcap : 1 ≤ c.capacity)
    (h : c.entries.length ≤ c.capacity) :
    (lruSet c k v).entries.length ≤ c.capacity := by
  unfold lruSet
  by_cases hin : c.entries.any (fun e => decide (e.1 = k)) = true
  · rw [if_pos hin]
    obtain ⟨e, he, hp⟩ := List.any_eq_true.mp hin
    have := List.length_eraseP_add_one (p := fun e => decide (e.1 = k)) he hp
    simp only [List.length_append, List.length_cons, List.length_nil]
    omega
  · rw [if_neg hin]
    by_cases hfull : c.capacity ≤ c.entries.length
    · rw [if_pos hfull]
      simp only [List.length_append, List.length_tail, List.length_cons, List.length_nil]
      omega
    · rw [if_neg hfull]
      simp only [List.length_append, List.length_cons, List.length_nil]
      omega

/-- Filling within capacity with fresh, distinct keys appends in order. -/
theorem lruFill_below (cap : Nat) (l : List (K × V)) :
    ∀ acc : LRUCache K V, acc.capacity = cap →
      (∀ q ∈ l, ∀ e ∈ acc.entries, e.1 ≠ q.1) →
      ((l.map Prod.fst).Nodup) →
      acc.entries.length + l.length ≤ cap →
      l.foldl (fun a p => lruSet a p.1 p.2) acc = ⟨cap, acc.entries ++ l⟩ := by
  induction l with
  | nil =>
    intro acc hcap _ _ _
    simp [← hcap]
  | cons p rest ih =>
    intro acc hcap hdisj hnd hlen
    rw [List.map_cons, List.nodup_cons] at hnd
    rw [List.foldl_cons]
    have hany : acc.entries.any (fun e => decide (e.1 = p.1)) = false := by
      rw [Bool.eq_false_iff]
      intro habs
      obtain ⟨e, he, hp⟩ := List.any_eq_true.mp habs
      exact hdisj p (List.mem_cons_self p rest) e he (by simpa using hp)
    have hlt : acc.entries.length < acc.capacity := by
      rw [hcap]
      simp only [List.length_cons] at hlen
      omega
    have hstep : lruSet acc p.1 p.2 = ⟨cap, acc.entries ++ [p]⟩ := by
      unfold lruSet
      rw [if_neg (by rw [hany]; exact Bool.false_ne_true),
        if_neg (by omega), hcap]
    rw [hstep]
    rw [ih ⟨cap, acc.entries ++ [p]⟩ rfl ?_ hnd.2 ?_]
    · simp
    · intro q hq e he hk
      rcases List.mem_append.mp he with h1 | h1
      · exact hdisj q (List.mem_cons_of_mem p hq) e h1 hk
      · rw [List.mem_singleton.mp h1] at hk
        exact hnd.1 (by rw [hk]; exact List.mem_map_of_mem Prod.fst hq)
    · simp only [List.length_append, List.length_cons, List.length_nil]
      simp only [List.length_cons] at hlen
      omega

/-- Inserting capacity-plus-one distinct keys into a fresh cache evicts
exactly the first-inserted (least-recently-touched) entry. -/
theorem lruFill_evicts (cap : Nat) (hcap : 1 ≤ cap) (p0 : K × V) (rest : List (K × V))
    (hlen : rest.length = cap)
    (hnd : ((p0 :: rest).map Prod.fst).Nodup) :
    (lruFill cap (p0 :: rest)).entries = rest := by
  rw [List.map_cons, List.nodup_cons] at hnd
  unfold lruFill
  rw [List.foldl_cons]
  have hstep : lruSet (lruEmpty cap : LRUCache K V) p0.1 p0.2 = ⟨cap, [p0]⟩ := by
    unfold lruSet lruEmpty
    rw [if_neg (by simp), if_neg (by simp; omega)]
    rfl
  rw [hstep]
  have hne : rest ≠ [] := by
    intro habs
    rw [habs] at hlen
    simp at hlen
    omega
  obtain ⟨front, plast, hfl⟩ : ∃ f p, rest = f ++ [p] :=
    ⟨rest.dropLast, rest.getLast hne, (List.dropLast_append_getLast hne).symm⟩
  have hndr : (rest.map Prod.fst).Nodup := hnd.2
  subst hfl
  have hfrontlen : front.length = cap - 1 := by
    simp only [List.length_append, List.length_cons, List.length_nil] at hlen
    omega
  rw [List.foldl_append]
  have hndf : (front.map Prod.fst).Nodup := by
    rw [List.map_append] at hndr
    exact (List.nodup_append.mp hndr).1
  rw [lruFill_below cap front ⟨cap, [p0]⟩ rfl ?_ hndf ?_]
  · show (lruSet ⟨cap, [p0] ++ front⟩ plast.1 plast.2).entries = front ++ [plast]
    have hanyl : (([p0] ++ front).any (fun e => decide (e.1 = plast.1))) = false := by
      rw [Bool.eq_false_iff]
      intro habs
      obtain ⟨e, he, hp⟩ := List.any_eq_true.mp habs
      have hpk : e.1 = plast.1 := by simpa using hp
      rcases List.mem_append.mp he with h1 | h1
      · apply hnd.1
        rw [List.mem_singleton.mp h1] at hpk
        rw [hpk, List.map_append]
        exact List.mem_append.mpr (Or.inr (by simp))
      · rw [List.map_append] at hndr
        have := (List.nodup_append.mp hndr).2.2
        exact this (List.mem_map_of_mem Prod.fst h1) (by rw [hpk]; simp)
    unfold lruSet
    rw [if_neg (by rw [hanyl]; exact Bool.false_ne_true),
      if_pos (by
        simp only [List.length_append, List.length_cons, List.length_nil]
        omega)]
    simp
  · intro q hq e he hk
    rcases List.mem_singleton.mp he with h1
    apply hnd.1
    rw [h1] at hk
    rw [hk, List.map_append]
    exact List.mem_append.mpr (Or.inl (List.mem_map_of_mem Prod.fst hq))
  · simp only [List.length_cons, List.length_nil]
    omega

/-- Every prefix of the insertion sequence respects the capacity bound. -/
theorem lruFill_size (cap : Nat) (hcap : 1 ≤ cap) (ps : List (K × V)) :
    (lruFill cap ps : LRUCache K V).entries.length ≤ cap := by
  suffices h : ∀ (l : List (K × V)) (acc : LRUCache K V), acc.capacity = cap →
      acc.entries.length ≤ cap →
      (l.foldl (fun a p => lruSet a p.1 p.2) acc).entries.length ≤ cap by
    exact h ps (lruEmpty cap) rfl (by simp [lruEmpty])
  intro l
  induction l with
  | nil =>
    intro acc _ hl
    simpa using hl
  | cons p rest ih =>
    intro acc hc hl
    rw [List.foldl_cons]
    refine ih _ (by rw [lruSet_capacity]; exact hc) ?_
    have h1 : acc.entries.length ≤ acc.capacity := by
      rw [hc]
      exact hl
    have h2 := lruSet_size acc p.1 p.2 (by rw [hc]; exact hcap) h1
    rw [hc] at h2
    exact h2

end LRUProofs

/-- C6 (as stated, with the `OrderedDict` distinct-keys invariant made
explicit): a `set` followed by a `get` of the same key returns the stored
value; inserting capacity-plus-one distinct keys into a fresh cache of
capacity at least one evicts exactly the least-recently-touched entry,
every other entry stays retrievable with its value, and no prefix of the
insertion sequence ever exceeds the capacity. -/
theorem lru_roundtrip_eviction {K V : Type} [DecidableEq K] [DecidableEq V]
    (cache : LRUCache K V) (k : K) (v : V)
    (hcache : (cache.entries.map Prod.fst).Nodup)
    (c : Nat) (hc : 1 ≤ c) (p0 : K × V) (rest : List (K × V))
    (hlen : rest.length = c)
    (hnd : ((p0 :: rest).map Prod.fst).Nodup) :
    (lruGet (lruSet cache k v) k).1 = some v
    ∧ (lruFill c (p0 :: rest)).entries = rest
    ∧ (lruGet (lruFill c (p0 :: rest)) p0.1).1 = none
    ∧ (rest.all fun q => decide ((lruGet (lruFill c (p0 :: rest)) q.1).1 = some q.2)) = true
    ∧ ((List.range (c + 2)).all fun n =>
        decide ((lruFill c ((p0 :: rest).take n)).entries.length ≤ c)) = true := by
  have hfill := lruFill_evicts c hc p0 rest hlen hnd
  rw [List.map_cons, List.nodup_cons] at hnd
  refine ⟨lruGet_after_set cache k v hcache, hfill, ?_, ?_, ?_⟩
  · unfold lruGet
    rw [hfill, find?_eq_none_of_keys p0.1 rest ?_]
    intro e he hk
    exact hnd.1 (by rw [← hk]; exact List.mem_map_of_mem Prod.fst he)
  · rw [List.all_eq_true]
    intro q hq
    rw [decide_eq_true_eq]
    unfold lruGet
    rw [hfill, find?_mem_nodup rest q hnd.2 hq]
  · rw [List.all_eq_true]
    intro n _
    rw [decide_eq_true_eq]
    exact lruFill_size c hc _

theorem lru_roundtrip_eviction_witness :
    (lruGet (lruSet (⟨2, [(9, 90)]⟩ : LRUCache Nat Nat) 5 7) 5).1 = some 7
    ∧ (lruFill 2 [(1, 10), (2, 20), (3, 30)] : LRUCache Nat Nat).entries = [(2, 20), (3, 30)]
    ∧ (lruGet (lruFill 2 [(1, 10), (2, 20), (3, 30)] : LRUCache Nat Nat) 1).1 = none
    ∧ ([(2, 20), (3, 30)].all fun q =>
        decide ((lruGet (lruFill 2 [(1, 10), (2, 20), (3, 30)] : LRUCache Nat Nat) q.1).1
          = some q.2)) = true
    ∧ ((List.range 4).all fun n =>
        decide ((lruFill 2 (([(1, 10), (2, 20), (3, 30)] : List (Nat × Nat)).take n)).entries.length
          ≤ 2)) = true :=
  lru_roundtrip_eviction (⟨2, [(9, 90)]⟩ : LRUCache Nat Nat) 5 7 (by decide)
    2 (by decide) (1, 10) [(2, 20), (3, 30)] (by decide) (by decide)

/-! ## C7 -/

/-- C7: in advanced mode an empty retrieval result is non-fatal — the
generation provider is still invoked, with the placeholder context
substituted into the advanced template, and the orchestrator reports
`success = true` with the (non-empty) generated answer; in contrast,
textbook mode with empty retrieval fails without a single generation
call. -/
theorem advanced_tolerates_empty_retrieval (message raw : String)
    (provider : Nat → CallOutcome) (sug : SuggestOutcome)
    (hm1 : message ≠ "") (hm2 : 3 ≤ (pyStrip message).length)
    (hp : provider 0 = CallOutcome.ok raw) (hr : pyStrip raw ≠ "") :
    (get_chat_response message "advanced" [] provider sug).1.success = true
    ∧ (get_chat_response message "advanced" [] provider sug).1.answer = pyStrip raw
    ∧ (get_chat_response message "advanced" [] provider sug).1.answer ≠ ""
    ∧ (get_chat_response message "advanced" [] provider sug).2
        = [⟨"gpt-4o", "You are an advanced science educator.",
            advancedPrompt advancedPlaceholder message, true⟩]
    ∧ (get_chat_response message "textbook" [] provider sug).1.success = false
    ∧ (get_chat_response message "textbook" [] provider sug).2 = [] := by
  have hguard : ¬(message = "" ∨ (pyStrip message).length < 3) := by
    rintro (h1 | h2)
    · exact hm1 h1
    · omega
  have hchat := openai_chat_first_ok modelAdvanced "You are an advanced science educator."
    (advancedPrompt advancedPlaceholder message) hp
  have hadv : generate_advanced_answer message [] provider
      = (pyStrip raw,
         [⟨"gpt-4o", "You are an advanced science educator.",
           advancedPrompt advancedPlaceholder message, true⟩]) := by
    rw [show modelAdvanced = "gpt-4o" from rfl] at hchat
    show (match openai_chat provider "gpt-4o" "You are an advanced science educator."
        (advancedPrompt advancedPlaceholder message) with
      | (some t, log) => (t, log)
      | (none, log) => ("Error generating advanced explanation. Please try again.", log)) = _
    rw [hchat]
  have hgen : generate_answer message "advanced" [] provider sug
      = (pyStrip raw,
         [⟨"gpt-4o", "You are an advanced science educator.",
           advancedPrompt advancedPlaceholder message, true⟩]) := by
    unfold generate_answer
    rw [if_neg hguard]
    simp [hadv]
  have hresp : get_chat_response message "advanced" [] provider sug
      = (⟨pyStrip raw, generate_suggested_questions (pyStrip raw) sug, "advanced", true,
          "advanced_mode", "advanced", some "Advanced mode: allows deeper reasoning beyond textbook"⟩,
         [⟨"gpt-4o", "You are an advanced science educator.",
           advancedPrompt advancedPlaceholder message, true⟩]) := by
    unfold get_chat_response
    rw [if_neg (by decide)]
    simp [hgen]
  refine ⟨by rw [hresp], by rw [hresp], by rw [hresp]; exact hr, by rw [hresp], ?_, ?_⟩
  · unfold get_chat_response
    rw [if_pos rfl]
    rfl
  · unfold get_chat_response
    rw [if_pos rfl]
    rfl

def advancedWitnessProvider : Nat → CallOutcome :=
  fun _ => CallOutcome.ok "Rockets work by expelling mass at high speed."

theorem advanced_tolerates_empty_retrieval_witness :
    (get_chat_response "How do rockets work?" "advanced" [] advancedWitnessProvider
        SuggestOutcome.failure).1.success = true
    ∧ (get_chat_response "How do rockets work?" "advanced" [] advancedWitnessProvider
        SuggestOutcome.failure).1.answer
        = pyStrip "Rockets work by expelling mass at high speed."
    ∧ (get_chat_response "How do rockets work?" "textbook" [] advancedWitnessProvider
        SuggestOutcome.failure).1.success = false
    ∧ (get_chat_response "How do rockets work?" "textbook" [] advancedWitnessProvider
        SuggestOutcome.failure).2 = [] := by
  have h := advanced_tolerates_empty_retrieval "How do rockets work?"
    "Rockets work by expelling mass at high speed." advancedWitnessProvider
    SuggestOutcome.failure (by decide) (by decide) rfl (by decide)
  exact ⟨h.1, h.2.1, h.2.2.2.2.1, h.2.2.2.2.2⟩

/-! ## C8 -/

/-- C8 (amended): `save_answer` on a submitted session fails with the
404 error and leaves the session unchanged; but the session is not fully
read-only after submission, because `submit_test` never checks the
`submitted` flag — any call to it (including a re-submission) regrades
and overwrites `submittedAt` with the current time, while preserving the
answers, the question list and the start time. -/
theorem session_write_protection
    (s : Session) (qid : Option String) (ans : PyVal) (hs : s.submitted = true)
    (s2 : Session) (now : Nat) (body : Option Int) (cache : GradeCache) :
    save_answer (some s) qid ans
      = (⟨404, false, some "Test not found or already submitted"⟩, some s)
    ∧ (submit_test s2 now body cache).2.1.answers = s2.answers
    ∧ (submit_test s2 now body cache).2.1.questionIds = s2.questionIds
    ∧ (submit_test s2 now body cache).2.1.startedAt = s2.startedAt
    ∧ (submit_test s2 now body cache).2.1.submitted = true
    ∧ (submit_test s2 now body cache).2.1.submittedAt = some now := by
  refine ⟨?_, rfl, rfl, rfl, rfl, rfl⟩
  unfold save_answer
  dsimp only
  rw [if_pos hs]

def submittedSession : Session :=
  ⟨"ch1", ["q-mcq-1"], [("q-mcq-1", PyVal.int 1)], 50, true, 60,
   [("q-mcq-1", ⟨"q-mcq-1", "mcq", PyVal.int 1, PyVal.int 1, 10, true, []⟩)], some 100⟩

def submittedCache : GradeCache :=
  [(("q-mcq-1", PyVal.int 1), ⟨"q-mcq-1", "mcq", PyVal.int 1, PyVal.int 1, 10, true, []⟩)]

/-- C8 counterexample: re-submitting an already-submitted session is not
rejected and produces a session state different from the stored one (the
`submittedAt` timestamp is overwritten), so the session is not read-only
after submission. -/
theorem resubmit_mutation_cex :
    submittedSession.submitted = true
    ∧ (submit_test submittedSession 200 none submittedCache).2.1 ≠ submittedSession
    ∧ (submit_test submittedSession 200 none submittedCache).2.1.submittedAt = some 200
    ∧ submittedSession.submittedAt = some 100 := by decide

theorem session_write_protection_witness :
    save_answer (some submittedSession) (some "q-mcq-1") (PyVal.int 0)
      = (⟨404, false, some "Test not found or already submitted"⟩, some submittedSession)
    ∧ (submit_test submittedSession 200 none submittedCache).2.1.answers
        = submittedSession.answers
    ∧ (submit_test submittedSession 200 none submittedCache).2.1.submittedAt = some 200 := by
  have h := session_write_protection submittedSession (some "q-mcq-1") (PyVal.int 0)
    (by decide) submittedSession 200 none submittedCache
  exact ⟨h.1, h.2.1, h.2.2.2.2.2⟩

/-! ## C9 -/

/-- C9 (amended): a missing or sub-4-character question is rejected with
`success = false` before any retrieval or generation at both endpoints
(the query endpoint answers 400 both for a missing query and for a
present query whose stripped length is below 4); the query endpoint also
rejects an unknown mode with a 400 client error before any call; but the
chat endpoint never validates the mode — an unknown mode passes through
and yields a 200 response with `success = true` carrying the generic
error answer (still no server fault, and no retrieval or
answer-generation call is made). -/
theorem request_validation
    (lv : String) (chunks : List Chunk) (provider : Nat → CallOutcome)
    (sug s2 : SuggestOutcome)
    (msg : String) (hshort : msg = "" ∨ (pyStrip msg).length < 4)
    (q5 : String) (hq5e : q5 ≠ "") (hq5 : pyStrip q5 = "" ∨ (pyStrip q5).length < 4)
    (q2 : String) (hq2 : ¬(pyStrip q2 = "" ∨ (pyStrip q2).length < 4)) (hq2e : q2 ≠ "")
    (lv3 : String)
    (hlv3 : ¬(pyStrip lv3 = "textbook" ∨ pyStrip lv3 = "detailed" ∨ pyStrip lv3 = "advanced"))
    (msg4 : String) (h4 : ¬(msg4 = "" ∨ (pyStrip msg4).length < 4))
    (h4b : 3 ≤ (pyStrip msg4).length)
    (lv4 : String) (hlv4a : lv4 ≠ "textbook") (hlv4b : lv4 ≠ "detailed")
    (hlv4c : lv4 ≠ "advanced") :
    (chat_view (some msg) lv chunks provider sug).1.success = false
    ∧ (chat_view (some msg) lv chunks provider sug).2 = []
    ∧ (chat_view none lv chunks provider sug).1.success = false
    ∧ (chat_view none lv chunks provider sug).2 = []
    ∧ (llm_get_answer none lv chunks provider sug s2).1.status = 400
    ∧ (llm_get_answer none lv chunks provider sug s2).1.success = false
    ∧ (llm_get_answer none lv chunks provider sug s2).2 = []
    ∧ (llm_get_answer (some q5) lv chunks provider sug s2).1.status = 400
    ∧ (llm_get_answer (some q5) lv chunks provider sug s2).1.success = false
    ∧ (llm_get_answer (some q5) lv chunks provider sug s2).1.error
        = some "Query must be at least 4 characters long"
    ∧ (llm_get_answer (some q5) lv chunks provider sug s2).2 = []
    ∧ (llm_get_answer (some q2) lv3 chunks provider sug s2).1.status = 400
    ∧ (llm_get_answer (some q2) lv3 chunks provider sug s2).1.success = false
    ∧ (llm_get_answer (some q2) lv3 chunks provider sug s2).2 = []
    ∧ (chat_view (some msg4) lv4 chunks provider sug).1.status = 200
    ∧ (chat_view (some msg4) lv4 chunks provider sug).1.success = true
    ∧ (chat_view (some msg4) lv4 chunks provider sug).1.answer
        = some ("Error generating " ++ lv4 ++ " explanation. Please try again.")
    ∧ (chat_view (some msg4) lv4 chunks provider sug).2 = [] := by
  have hmsg4 : ¬(msg4 = "" ∨ (pyStrip msg4).length < 3) := by
    rintro (h1 | h2)
    · exact h4 (Or.inl h1)
    · omega
  have hgen : generate_answer msg4 lv4 chunks provider sug
      = ("Error generating " ++ lv4 ++ " explanation. Please try again.", []) := by
    unfold generate_answer
    rw [if_neg hmsg4, if_neg hlv4a, if_neg hlv4b, if_neg hlv4c]
  have hgcr : get_chat_response msg4 lv4 chunks provider sug
      = (⟨"Error generating " ++ lv4 ++ " explanation. Please try again.",
          generate_suggested_questions
            ("Error generating " ++ lv4 ++ " explanation. Please try again.") sug,
          lv4, true, lv4 ++ "_mode", "textbook",
          some "Advanced mode: allows deeper reasoning beyond textbook"⟩, []) := by
    unfold get_chat_response
    rw [if_neg hlv4a]
    simp only [hgen]
    rw [if_neg (by rintro (h | h); exacts [hlv4b h, hlv4c h]), if_neg (by decide)]
  have hcv4 : chat_view (some msg4) lv4 chunks provider sug
      = (⟨200, true,
          some ("Error generating " ++ lv4 ++ " explanation. Please try again."), none,
          some (generate_suggested_questions
            ("Error generating " ++ lv4 ++ " explanation. Please try again.") sug),
          some lv4⟩, []) := by
    unfold chat_view
    rw [show (some msg4).getD "" = msg4 from rfl, if_neg h4]
    simp [hgcr]
  have hcv1 : chat_view (some msg) lv chunks provider sug
      = (⟨200, false, none,
          some "Please provide a valid question (at least 4 characters).", none, none⟩, []) := by
    unfold chat_view
    rw [show (some msg).getD "" = msg from rfl, if_pos hshort]
  have hcv0 : chat_view none lv chunks provider sug
      = (⟨200, false, none,
          some "Please provide a valid question (at least 4 characters).", none, none⟩, []) := by
    unfold chat_view
    rw [show (none : Option String).getD "" = "" from rfl, if_pos (Or.inl rfl)]
  have hla0 : llm_get_answer none lv chunks provider sug s2
      = (⟨400, false, none, some "Query parameter is required", none, none⟩, []) := by
    unfold llm_get_answer
    rfl
  have hla3 : llm_get_answer (some q2) lv3 chunks provider sug s2
      = (⟨400, false, none,
          some "Invalid level. Must be one of: textbook, detailed, advanced", none, none⟩,
         []) := by
    unfold llm_get_answer
    rw [show (match some q2 with
        | none => (⟨400, false, none, some "Query parameter is required", none, none⟩, [])
        | some q =>
          if q = "" then
            ((⟨400, false, none, some "Query parameter is required", none, none⟩ : HttpResp), ([] : List GenCall))
          else if pyStrip q = "" ∨ (pyStrip q).length < 4 then
            (⟨400, false, none, some "Query must be at least 4 characters long", none, none⟩, [])
          else if ¬(pyStrip lv3 = "textbook" ∨ pyStrip lv3 = "detailed" ∨ pyStrip lv3 = "advanced") then
            (⟨400, false, none,
              some "Invalid level. Must be one of: textbook, detailed, advanced", none, none⟩, [])
          else
            let x := generate_answer q (pyStrip lv3) chunks provider sug
            let sqs := generate_suggested_questions x.1 s2
            (⟨200, true, some x.1, none,
              some (sqs.filter (fun s => !(pyStrip s).isEmpty)), some (pyStrip lv3)⟩, x.2)) =
        (if q2 = "" then
            ((⟨400, false, none, some "Query parameter is required", none, none⟩ : HttpResp), ([] : List GenCall))
          else if pyStrip q2 = "" ∨ (pyStrip q2).length < 4 then
            (⟨400, false, none, some "Query must be at least 4 characters long", none, none⟩, [])
          else if ¬(pyStrip lv3 = "textbook" ∨ pyStrip lv3 = "detailed" ∨ pyStrip lv3 = "advanced") then
            (⟨400, false, none,
              some "Invalid level. Must be one of: textbook, detailed, advanced", none, none⟩, [])
          else
            let x := generate_answer q2 (pyStrip lv3) chunks provider sug
            let sqs := generate_suggested_questions x.1 s2
            (⟨200, true, some x.1, none,
              some (sqs.filter (fun s => !(pyStrip s).isEmpty)), some (pyStrip lv3)⟩, x.2))
        from rfl]
    rw [if_neg hq2e, if_neg hq2, if_pos hlv3]
  have hla5 : llm_get_answer (some q5) lv chunks provider sug s2
      = (⟨400, false, none, some "Query must be at least 4 characters long", none, none⟩,
         []) := by
    unfold llm_get_answer
    dsimp only
    rw [if_neg hq5e, if_pos hq5]
  refine ⟨by rw [hcv1], by rw [hcv1], by rw [hcv0], by rw [hcv0], by rw [hla0],
    by rw [hla0], by rw [hla0], by rw [hla5], by rw [hla5], by rw [hla5], by rw [hla5],
    by rw [hla3], by rw [hla3], by rw [hla3],
    by rw [hcv4], by rw [hcv4], by rw [hcv4], by rw [hcv4]⟩

def validationCexProvider : Nat → CallOutcome := fun _ => CallOutcome.ok "ok"

/-- C9 counterexample: the chat endpoint, given a well-formed question
and the invalid mode string `bogus`, answers with `success = true` (and
a 200 status), not the client error with `success = false` the claim
requires for every endpoint. -/
theorem chat_invalid_mode_cex :
    (chat_view (some "What is the solar system?") "bogus" [] validationCexProvider
        SuggestOutcome.failure).1.success = true
    ∧ (chat_view (some "What is the solar system?") "bogus" [] validationCexProvider
        SuggestOutcome.failure).1.status = 200
    ∧ (chat_view (some "What is the solar system?") "bogus" [] validationCexProvider
        SuggestOutcome.failure).1.answer
        = some "Error generating bogus explanation. Please try again." := by decide

theorem request_validation_witness :
    (chat_view (some "ab") "textbook" [] validationCexProvider SuggestOutcome.failure).1.success
      = false
    ∧ (llm_get_answer (some "ab") "textbook" [] validationCexProvider
        SuggestOutcome.failure SuggestOutcome.failure).1.status = 400
    ∧ (llm_get_answer (some "ab") "textbook" [] validationCexProvider
        SuggestOutcome.failure SuggestOutcome.failure).1.error
        = some "Query must be at least 4 characters long"
    ∧ (llm_get_answer (some "What is gravity?") "bogus" [] validationCexProvider
        SuggestOutcome.failure SuggestOutcome.failure).1.status = 400
    ∧ (chat_view (some "What is gravity?") "bogus" [] validationCexProvider
        SuggestOutcome.failure).1.success = true := by
  have h := request_validation "textbook" [] validationCexProvider
    SuggestOutcome.failure SuggestOutcome.failure
    "ab" (by decide)
    "ab" (by decide) (by decide)
    "What is gravity?" (by decide) (by decide)
    "bogus" (by decide)
    "What is gravity?" (by decide) (by decide)
    "bogus" (by decide) (by decide) (by decide)
  exact ⟨h.1, h.2.2.2.2.2.2.2.1, h.2.2.2.2.2.2.2.2.2.1,
    h.2.2.2.2.2.2.2.2.2.2.2.1, h.2.2.2.2.2.2.2.2.2.2.2.2.2.2.2.1⟩

/-! ## C10 -/

/-- C10: the service entry point applies its own minimum-length guard,
weaker than the HTTP layer's: an empty message or one whose stripped
length is below 3 returns the fixed string for every mode without any
generation call, while a 3-character question — which the HTTP view
rejects with a 400 — passes the service guard and is dispatched (here to
the textbook pipeline). -/
theorem service_min_length_guard (message level : String) (chunks : List Chunk)
    (provider : Nat → CallOutcome) (sug : SuggestOutcome)
    (h : message = "" ∨ (pyStrip message).length < 3) :
    generate_answer message level chunks provider sug
      = ("Please provide a valid question.", [])
    ∧ (generate_answer "abc" "textbook" chunks provider sug).1
        = (generate_textbook_answer "abc" chunks provider sug).1.answer
    ∧ (llm_get_answer (some "abc") "textbook" chunks provider sug sug).1.status = 400
    ∧ (llm_get_answer (some "abc") "textbook" chunks provider sug sug).1.success = false
    ∧ (llm_get_answer (some "abc") "textbook" chunks provider sug sug).2 = [] := by
  have hla : llm_get_answer (some "abc") "textbook" chunks provider sug sug
      = (⟨400, false, none, some "Query must be at least 4 characters long", none, none⟩,
         []) := by
    unfold llm_get_answer
    dsimp only
    rw [if_neg (by decide), if_pos (by decide)]
  refine ⟨?_, ?_, by rw [hla], by rw [hla], by rw [hla]⟩
  · unfold generate_answer
    rw [if_pos h]
  · unfold generate_answer
    rw [if_neg (by decide), if_pos rfl]

theorem service_min_length_guard_witness :
    generate_answer "ab" "advanced" [] validationCexProvider SuggestOutcome.failure
      = ("Please provide a valid question.", [])
    ∧ (generate_answer "abc" "textbook" [] validationCexProvider SuggestOutcome.failure).1
        = (generate_textbook_answer "abc" [] validationCexProvider SuggestOutcome.failure).1.answer
    ∧ (llm_get_answer (some "abc") "textbook" [] validationCexProvider SuggestOutcome.failure
        SuggestOutcome.failure).1.status = 400 := by
  have h := service_min_length_guard "ab" "advanced" [] validationCexProvider
    SuggestOutcome.failure (by decide)
  exact ⟨h.1, h.2.1, h.2.2.1⟩

end BuddyAI
